import Mathlib

/-!
Shallow embedding of the two Maya automation utilities in this repository:
`framefit.py` (a camera frame-fit tool) and
`threaded_headless_mayas_example.py` (a batch headless-export launcher).

Conventions of the embedding:
* Scalars that Python/numpy hold as floats are modelled as rationals (`ℚ`);
  the arithmetic performed by the scripts is exact on the inputs considered.
* The Maya scene is modelled by the `Scene` record: the named objects with
  their shape nodes, the list of invisible DAG nodes, the target camera's
  world position and `centerOfInterest` attribute, the active selection and
  whether an undo chunk is open.
* External Maya calls that the scripts merely delegate to are modelled by
  parameters: `cmds.viewFit` is a parameter `viewFit : Scene → Vec3` giving
  the camera position it produces (it repositions the camera; the other
  state the scripts read is untouched by it in this model).
* Fallible Python code is embedded with `Except String`: the
  `AssertionError` of `get_bounds_of_anim_control_shapes` is an `.error`
  value (caught and skipped by its caller, as in the script).
* `numpy.mean` of an empty list yields NaN (with only a RuntimeWarning);
  the script then writes the NaN-propagated position into the camera via
  `cmds.xform` and returns normally — the `int(...)` at framefit.py:190 is
  applied to the separately-read `centerOfInterest`, which is never NaN.
  Since `ℚ` has no NaN, the mean is modelled as `Option` and a NaN-written
  camera position is recorded by the scene's `camPosNaN` flag.
-/

namespace FrameFit

/-- World-space 3-vector, the model of a numpy array of three floats. -/
structure Vec3 where
  x : ℚ
  y : ℚ
  z : ℚ
deriving DecidableEq, Repr

def Vec3.add (a b : Vec3) : Vec3 := ⟨a.x + b.x, a.y + b.y, a.z + b.z⟩

def Vec3.sub (a b : Vec3) : Vec3 := ⟨a.x - b.x, a.y - b.y, a.z - b.z⟩

/-- numpy `vector * scalar`. -/
def Vec3.scale (v : Vec3) (q : ℚ) : Vec3 := ⟨v.x * q, v.y * q, v.z * q⟩

instance : Add Vec3 := ⟨Vec3.add⟩

instance : Sub Vec3 := ⟨Vec3.sub⟩

/-- Geometry of a shape node: a NURBS curve with its world-space control
vertices (`MFnNurbsCurve.getCVs`), or any other shape kind, for which the
`MFnNurbsCurve` constructor raises and the script skips the shape. -/
inductive ShapeGeom where
  | curve (cvs : List Vec3)
  | nonCurve
deriving DecidableEq, Repr

/-- A shape node: a DAG name plus its geometry. -/
structure Shape where
  name : String
  geom : ShapeGeom
deriving DecidableEq, Repr

/-- A transform/joint scene object with its immediate shape children. -/
structure SceneObject where
  name : String
  shapes : List Shape
deriving DecidableEq, Repr

/-- The scene state the scripts read and write. `camPos` and `coi` are the
target camera's world translation and `centerOfInterest` attribute.
`camPosNaN` records that the stored camera translation is the NaN vector
(written by `cmds.xform` when the centroid mean of an empty list propagates
NaN); when it is `true` the rational `camPos` field carries no meaning. -/
structure Scene where
  objects : List SceneObject
  invisible : List String
  camPos : Vec3
  camPosNaN : Bool
  coi : ℚ
  selection : List String
  undoOpen : Bool
deriving DecidableEq, Repr

/-- `cmds.listRelatives(t, shapes=True)`: the immediate shape children of
the named object (no children for a name not in the scene). -/
def listRelativesShapes (s : Scene) (t : String) : List Shape :=
  match s.objects.find? (fun o => o.name == t) with
  | some o => o.shapes
  | none => []

/-- Python `int(q)`: truncation toward zero. -/
def pyInt (q : ℚ) : Int := if 0 ≤ q then Int.floor q else Int.ceil q

/-- The six per-axis bounds `[x_min, y_min, z_min, x_max, y_max, z_max]`
returned by `get_bounds_of_anim_control_shapes`. -/
structure Bounds where
  min_x : ℚ
  min_y : ℚ
  min_z : ℚ
  max_x : ℚ
  max_y : ℚ
  max_z : ℚ
deriving DecidableEq, Repr

/-- The "massive initial bound volume" the fold starts from
(`min_* = 9999999`, `max_* = -9999999`). -/
def sentinelBounds : Bounds := ⟨9999999, 9999999, 9999999, -9999999, -9999999, -9999999⟩

/-- One step of the min/max fold over a sampled control-vertex point. -/
def Bounds.update (b : Bounds) (p : Vec3) : Bounds :=
  ⟨min p.x b.min_x, min p.y b.min_y, min p.z b.min_z,
   max p.x b.max_x, max p.y b.max_y, max p.z b.max_z⟩

/-- World-space control vertices obtained from a shape; empty when the
`MFnNurbsCurve` constructor raises (non-curve shape, skipped). -/
def Shape.curvePoints (sh : Shape) : List Vec3 :=
  match sh.geom with
  | .curve cvs => cvs
  | .nonCurve => []

/-- All control-vertex points sampled from a list of shapes, in shape order
then CV order, as the nested loops of the script visit them. -/
def sampledPoints (shapes : List Shape) : List Vec3 :=
  (shapes.map Shape.curvePoints).flatten

/-- Embedding of `get_bounds_of_anim_control_shapes` (framefit.py:38-90):
asserts the control has shapes, selects those shapes, then folds min/max
over every CV of every curve shape starting from the sentinel volume. -/
def get_bounds_of_anim_control_shapes (s : Scene) (control : String) :
    Except String (Scene × Bounds) :=
  let shapes := listRelativesShapes s control
  if shapes.isEmpty then
    .error ("No shapes on control " ++ control)
  else
    let s1 := { s with selection := shapes.map Shape.name }
    .ok (s1, (sampledPoints shapes).foldl Bounds.update sentinelBounds)

/-- Embedding of `get_centre_in_bounds` (framefit.py:93-101):
`centre = max_bounds + (min_bounds - max_bounds) * 0.5`. -/
def get_centre_in_bounds (b : Bounds) : Vec3 :=
  let min_bounds : Vec3 := ⟨b.min_x, b.min_y, b.min_z⟩
  let max_bounds : Vec3 := ⟨b.max_x, b.max_y, b.max_z⟩
  let vector := min_bounds - max_bounds
  max_bounds + vector.scale (1 / 2)

/-- Elementwise sum of a list of vectors. -/
def sumVec : List Vec3 → Vec3
  | [] => ⟨0, 0, 0⟩
  | v :: r => v + sumVec r

/-- numpy `mean(points, axis=0)`: elementwise average; `none` models the NaN
produced on an empty list. -/
def meanVec (l : List Vec3) : Option Vec3 :=
  if l.isEmpty then none
  else some ((sumVec l).scale (1 / (l.length : ℚ)))

/-- The centre-point loop of `framefit_animrig` (framefit.py:157-167): for
each target, take its shape bounds (selecting its shapes as a side effect),
skip the target when the assertion fires, and collect the bound centres. -/
def centreLoop : Scene → List String → Scene × List Vec3
  | s, [] => (s, [])
  | s, t :: rest =>
    match get_bounds_of_anim_control_shapes s t with
    | .error _ => centreLoop s rest
    | .ok (s1, b) =>
      let (s2, cs) := centreLoop s1 rest
      (s2, get_centre_in_bounds b :: cs)

/-- The first filtering loop of `framefit_animrig` (framefit.py:130-137):
targets that have at least one shape. -/
def shapedTargets (s : Scene) (targets : List String) : List String :=
  targets.filter (fun t => !(listRelativesShapes s t).isEmpty)

/-- The shape names collected by the same loop, in visit order, for the
`cmds.select(shapes)` call before `viewFit`. -/
def collectedShapes (s : Scene) (targets : List String) : List String :=
  ((targets.map (fun t => (listRelativesShapes s t).map Shape.name)).flatten)

/-- The part of `framefit_animrig` up to and including the centre-point loop
(framefit.py:130-172): filter shapeless targets (`none` when nothing is
left), select the collected shapes, run the external `viewFit` (modelled as
placing the camera at a real, non-NaN position), drop hidden targets
(`set(targets).difference(set(invisible))`, modelled as dedup plus filter),
and collect the per-target bound centres. -/
def framefitSetup (viewFit : Scene → Vec3) (targets : List String) (s : Scene) :
    Option (Scene × List Vec3) :=
  let targets_ := shapedTargets s targets
  if targets_.isEmpty then none
  else
    let s1 := { s with selection := collectedShapes s targets }
    let s2 := { s1 with camPos := viewFit s1, camPosNaN := false }
    let iter := targets_.dedup.filter (fun t => !(s2.invisible.contains t))
    some (centreLoop s2 iter)

/-- Embedding of `framefit_animrig` (framefit.py:104-190). After the setup
phase: return unchanged when no shaped target remains; return after the
auto-fit when `zoom_amount == 0.0`; otherwise move the camera along the
vector to the mean centre by the clamped fraction and truncate the scaled
`centerOfInterest` with Python `int`. When the centre list is empty, the
mean is NaN: `moveto_pos = camera_pos + NaN * delta` is NaN and `cmds.xform`
writes it into the camera (recorded by `camPosNaN`), while the `int(...)`
at framefit.py:190 reads the real `centerOfInterest` attribute and the call
returns normally — it raises nothing. -/
def framefit_animrig (viewFit : Scene → Vec3) (targets : List String)
    (zoom_amount : ℚ) (s : Scene) : Scene :=
  match framefitSetup viewFit targets s with
  | none => s
  | some (s1, centre_points) =>
    if zoom_amount = 0 then s1
    else
      let delta := max 0 (min zoom_amount 1)
      match meanVec centre_points with
      | none =>
        let s2 := { s1 with camPosNaN := true }
        { s2 with coi := ((pyInt (s2.coi * (1 - delta)) : Int) : ℚ) }
      | some centre_pos =>
        let camera_pos := s1.camPos
        let vector := centre_pos - camera_pos
        let moveto_pos := camera_pos + vector.scale delta
        let s2 := { s1 with camPos := moveto_pos }
        { s2 with coi := ((pyInt (s2.coi * (1 - delta)) : Int) : ℚ) }

/-- Embedding of `get_all_rig_controls` (framefit.py:19-35): objects whose
name matches the `*_anim` / `*_control` suffix patterns. -/
def get_all_rig_controls (s : Scene) : List String :=
  (s.objects.filter
    (fun o => o.name.endsWith "_anim" || o.name.endsWith "_control")).map SceneObject.name

/-- The target list of the entry point (framefit.py:227):
`cmds.ls(sl=True, type=['transform','joint']) or get_all_rig_controls()`. -/
def selectedTargets (s : Scene) : List String :=
  let sel := s.selection.filter (fun n => (s.objects.find? (fun o => o.name == n)).isSome)
  if sel.isEmpty then get_all_rig_controls s else sel

/-- The try/except/finally discipline of the entry point (framefit.py:218-241):
remember the selection, open an undo chunk, run the inner computation
(returning its final state and the exception it raised, if any, which is
swallowed), then always close the chunk and restore the selection. -/
def run_with_undo (inner : Scene → Scene × Option String) (s : Scene) : Scene :=
  let sel := s.selection
  let s1 := { s with undoOpen := true }
  let s2 := (inner s1).1
  { s2 with undoOpen := false, selection := sel }

/-- Embedding of `framefit_animrig_current_panel_to_selected`
(framefit.py:193-241) with the camera already resolved: frame the selected
transforms (or every rig control when nothing is selected) at zoom 0.25,
under the undo/restore discipline (the framing call itself raises
nothing, so the swallowed-exception slot is `none`). -/
def framefit_animrig_current_panel_to_selected (viewFit : Scene → Vec3)
    (s : Scene) : Scene :=
  run_with_undo (fun s1 =>
    (framefit_animrig viewFit (selectedTargets s1) (1 / 4) s1, none)) s

end FrameFit

namespace AnimRigBatch

/-- A `pathlib.Path` as the launcher uses it: the path string and its final
component (`Path.name`). -/
structure MayaPath where
  path : String
  name : String
deriving DecidableEq, Repr

/-- What `proc.communicate()` plus `proc.returncode` yield for one spawned
headless worker. -/
structure ProcResult where
  returncode : Int
  stderr : String
deriving DecidableEq, Repr

/-- Embedding of `run_create_anim_threaded`
(threaded_headless_mayas_example.py:108-114): file one job's outcome into
the shared `success` / `errors` lists. -/
def run_create_anim_threaded (res : ProcResult) (t : MayaPath)
    (acc : List (String × MayaPath) × List (String × MayaPath)) :
    List (String × MayaPath) × List (String × MayaPath) :=
  if res.returncode ≠ 0 then (acc.1, acc.2 ++ [(res.stderr, t)])
  else (acc.1 ++ [("Success", t)], acc.2)

/-- The fan-in over all jobs (threaded_headless_mayas_example.py:116-126):
every worker thread is joined, so every job's outcome is recorded; the
recording order is modelled as job order (the aggregate facts proved below
do not depend on it). -/
def collectResults (jobs : List (ProcResult × MayaPath)) :
    List (String × MayaPath) × List (String × MayaPath) :=
  jobs.foldl (fun acc j => run_create_anim_threaded j.1 j.2 acc) ([], [])

/-- Embedding of the report phase of `anim_rig_generator`
(threaded_headless_mayas_example.py:105-136), taking the per-job process
results as input: print a line per success and each failure's stderr, then
raise one `AssertionError` naming the failed paths when any job failed. -/
def anim_rig_generator_report (jobs : List (ProcResult × MayaPath)) :
    List String × Except String Unit :=
  let res := collectResults jobs
  let prints :=
    res.1.map (fun i => "CreateAnim: " ++ i.2.path) ++ res.2.map (fun e => e.1)
  if res.2.isEmpty then (prints, .ok ())
  else
    let failed_paths := String.intercalate ", " (res.2.map (fun i => i.2.name))
    (prints, .error ("Failed Files: " ++ failed_paths))

end AnimRigBatch

namespace FrameFit

/-! Concrete scenes used by the witnesses and counterexamples below. -/

/-- Control `a` with one curve shape whose CVs span the extent
`(0,0,0,2,2,2)`. -/
def demoA : SceneObject := ⟨"a", [⟨"aShape", .curve [⟨0, 0, 0⟩, ⟨2, 2, 2⟩]⟩]⟩

/-- Control `b` with one curve shape whose CVs span the extent
`(4,4,4,6,6,6)`. -/
def demoB : SceneObject := ⟨"b", [⟨"bShape", .curve [⟨4, 4, 4⟩, ⟨6, 6, 6⟩]⟩]⟩

/-- The spec's worked example: camera at `(3,3,-7)` in front of the two demo
controls. -/
def demoScene : Scene :=
  { objects := [demoA, demoB], invisible := [], camPos := ⟨3, 3, -7⟩,
    camPosNaN := false, coi := 10, selection := [], undoOpen := false }

/-- A scene with one visible demo control and a camera whose
`centerOfInterest` is 3. -/
def coiScene : Scene :=
  { objects := [demoA], invisible := [], camPos := ⟨0, 0, 0⟩,
    camPosNaN := false, coi := 3, selection := [], undoOpen := false }

/-- Like `coiScene` but with a fractional `centerOfInterest` of `3/2`. -/
def fracCoiScene : Scene :=
  { objects := [demoA], invisible := [], camPos := ⟨0, 0, 0⟩,
    camPosNaN := false, coi := 3 / 2, selection := [], undoOpen := false }

/-- A scene whose only (shaped) control is hidden. -/
def hiddenScene : Scene :=
  { objects := [demoA], invisible := ["a"], camPos := ⟨0, 0, 0⟩,
    camPosNaN := false, coi := 10, selection := [], undoOpen := false }

/-- A scene whose only control carries a single non-curve shape, so no CV
point can be sampled from it. -/
def nonCurveScene : Scene :=
  { objects := [⟨"n", [⟨"nShape", .nonCurve⟩]⟩], invisible := [],
    camPos := ⟨7, 0, 0⟩, camPosNaN := false, coi := 4, selection := [],
    undoOpen := false }

/-- The per-target centre the loop records for a target, as a function of
the scene's objects alone. -/
def centreOf (s : Scene) (t : String) : Option Vec3 :=
  if (listRelativesShapes s t).isEmpty then none
  else some (get_centre_in_bounds
    ((sampledPoints (listRelativesShapes s t)).foldl Bounds.update sentinelBounds))

/-- Modelled from the spec's words ("the computed centroid's mean equals the
elementwise average of each extent's (min+max)/2"): the elementwise average
of a list of points, to be compared with the code's `meanVec`. -/
def specElementwiseAverage (l : List Vec3) : Vec3 :=
  ⟨(l.map Vec3.x).sum / (l.length : ℚ), (l.map Vec3.y).sum / (l.length : ℚ),
   (l.map Vec3.z).sum / (l.length : ℚ)⟩

/-- Per-axis well-formedness of a bounding extent. -/
def Bounds.wf (b : Bounds) : Prop :=
  b.min_x ≤ b.max_x ∧ b.min_y ≤ b.max_y ∧ b.min_z ≤ b.max_z

/-- A scene with a single control `c` whose curve shape has two CVs. -/
def twoPointScene : Scene :=
  { objects := [⟨"c", [⟨"cShape", .curve [⟨1, 2, 3⟩, ⟨4, 0, 5⟩]⟩]⟩],
    invisible := [], camPos := ⟨0, 0, 0⟩, camPosNaN := false, coi := 1,
    selection := [], undoOpen := false }

/-- A scene whose only object has no shapes at all. -/
def bareScene : Scene :=
  { objects := [⟨"empty", []⟩], invisible := [], camPos := ⟨0, 0, 0⟩,
    camPosNaN := false, coi := 1, selection := [], undoOpen := false }

/-- The state of `coiScene` after a first framing call at fraction `1/2`
with a position-preserving auto-fit. -/
def coiSceneAfterFirst : Scene :=
  { coiScene with
    selection := ["aShape"]
    camPos := ⟨1 / 2, 1 / 2, 1 / 2⟩
    coi := 1 }

/-- The state of `hiddenScene` after a framing call at fraction `1/4` whose
auto-fit moved the camera to `(5,5,5)`: every shaped target was hidden, so
the NaN centroid mean was written into the camera translation (the flag)
and the `centerOfInterest` was truncated from `10 * 3/4` to 7. -/
def hiddenSceneAfter : Scene :=
  { hiddenScene with
    selection := ["aShape"]
    camPos := ⟨5, 5, 5⟩
    camPosNaN := true
    coi := 7 }

/-! Helper lemmas about the embedded operations. -/

theorem Vec3.add_mk (a b c d e f : ℚ) :
    (⟨a, b, c⟩ : Vec3) + ⟨d, e, f⟩ = ⟨a + d, b + e, c + f⟩ := rfl

theorem Vec3.sub_mk (a b c d e f : ℚ) :
    (⟨a, b, c⟩ : Vec3) - ⟨d, e, f⟩ = ⟨a - d, b - e, c - f⟩ := rfl

theorem Vec3.scale_mk (a b c q : ℚ) :
    Vec3.scale ⟨a, b, c⟩ q = ⟨a * q, b * q, c * q⟩ := rfl


theorem Vec3.add_scale_zero (a v : Vec3) : a + v.scale 0 = a := by
  cases a; cases v
  simp [Vec3.scale_mk, Vec3.add_mk]

theorem listRelativesShapes_eq_of_objects {a b : Scene} (t : String)
    (h : a.objects = b.objects) :
    listRelativesShapes a t = listRelativesShapes b t := by
  unfold listRelativesShapes
  rw [h]

/-- Unpacking a successful `get_bounds_of_anim_control_shapes` call: the
returned scene is the input with the control's shapes selected and the
bounds are the min/max fold over the sampled CV points. -/
theorem get_bounds_ok_eq {s : Scene} {t : String} {s1 : Scene} {b : Bounds}
    (h : get_bounds_of_anim_control_shapes s t = .ok (s1, b)) :
    s1 = { s with selection := (listRelativesShapes s t).map Shape.name } ∧
    b = (sampledPoints (listRelativesShapes s t)).foldl Bounds.update sentinelBounds := by
  unfold get_bounds_of_anim_control_shapes at h
  by_cases he : (listRelativesShapes s t).isEmpty
  · simp [he] at h
  · simp [he] at h
    exact ⟨h.1.symm, h.2.symm⟩

/-- `get_bounds_of_anim_control_shapes` fails exactly on the shape-less
controls. -/
theorem get_bounds_error_iff {s : Scene} {t : String} :
    (∃ e, get_bounds_of_anim_control_shapes s t = .error e) ↔
    (listRelativesShapes s t).isEmpty := by
  unfold get_bounds_of_anim_control_shapes
  by_cases he : (listRelativesShapes s t).isEmpty <;> simp [he]

theorem centreOf_eq_of_objects {a b : Scene} (t : String)
    (h : a.objects = b.objects) : centreOf a t = centreOf b t := by
  unfold centreOf
  rw [listRelativesShapes_eq_of_objects t h]

/-- The centre loop only rewrites the selection: every other scene field
survives it unchanged. -/
theorem centreLoop_fst_preserves (ts : List String) : ∀ s : Scene,
    ((centreLoop s ts).1).objects = s.objects ∧
    ((centreLoop s ts).1).invisible = s.invisible ∧
    ((centreLoop s ts).1).camPos = s.camPos ∧
    ((centreLoop s ts).1).camPosNaN = s.camPosNaN ∧
    ((centreLoop s ts).1).coi = s.coi ∧
    ((centreLoop s ts).1).undoOpen = s.undoOpen := by
  induction ts with
  | nil => intro s; exact ⟨rfl, rfl, rfl, rfl, rfl, rfl⟩
  | cons t rest ih =>
    intro s
    unfold centreLoop
    cases hgb : get_bounds_of_anim_control_shapes s t with
    | error e => simpa using ih s
    | ok pr =>
      obtain ⟨s1, b⟩ := pr
      obtain ⟨hs1, -⟩ := get_bounds_ok_eq hgb
      subst hs1
      simpa using ih _

/-- The centres the loop collects, target by target: `none` entries (the
caught assertion) are skipped. -/
theorem centreLoop_snd (ts : List String) : ∀ s : Scene,
    (centreLoop s ts).2 = ts.filterMap (centreOf s) := by
  induction ts with
  | nil => intro s; rfl
  | cons t rest ih =>
    intro s
    unfold centreLoop
    cases hgb : get_bounds_of_anim_control_shapes s t with
    | error e =>
      have hemp : (listRelativesShapes s t).isEmpty := get_bounds_error_iff.mp ⟨e, hgb⟩
      have hnone : centreOf s t = none := by unfold centreOf; rw [if_pos hemp]
      simp [List.filterMap_cons, hnone, ih s]
    | ok pr =>
      obtain ⟨s1, b⟩ := pr
      obtain ⟨hs1, hb⟩ := get_bounds_ok_eq hgb
      have hemp : ¬ (listRelativesShapes s t).isEmpty := by
        intro hc
        obtain ⟨e, he⟩ := get_bounds_error_iff.mpr hc
        rw [hgb] at he
        cases he
      have hsome : centreOf s t = some (get_centre_in_bounds b) := by
        unfold centreOf
        rw [if_neg hemp, hb]
      have hfun : centreOf s1 = centreOf s := by
        funext u
        exact centreOf_eq_of_objects u (by rw [hs1])
      simp [List.filterMap_cons, hsome, ih s1, hfun]

/-- Unpacking a productive `framefitSetup`: the returned scene is the loop's
final state over the post-auto-fit scene, and the centres are the loop's. -/
theorem framefitSetup_eq {vf : Scene → Vec3} {targets : List String} {s : Scene}
    {s1 : Scene} {cps : List Vec3}
    (h : framefitSetup vf targets s = some (s1, cps)) :
    ¬ (shapedTargets s targets).isEmpty ∧
    s1 = (centreLoop
      { s with selection := collectedShapes s targets,
               camPos := vf { s with selection := collectedShapes s targets },
               camPosNaN := false }
      ((shapedTargets s targets).dedup.filter
        (fun t => !(s.invisible.contains t)))).1 ∧
    cps = (centreLoop
      { s with selection := collectedShapes s targets,
               camPos := vf { s with selection := collectedShapes s targets },
               camPosNaN := false }
      ((shapedTargets s targets).dedup.filter
        (fun t => !(s.invisible.contains t)))).2 := by
  unfold framefitSetup at h
  by_cases he : (shapedTargets s targets).isEmpty
  · simp [he] at h
  · simp only [he, Bool.false_eq_true, if_false, Option.some.injEq] at h
    refine ⟨he, ?_, ?_⟩
    · exact (congrArg Prod.fst h).symm
    · exact (congrArg Prod.snd h).symm

theorem Vec3.add_def (a b : Vec3) : a + b = ⟨a.x + b.x, a.y + b.y, a.z + b.z⟩ := rfl

theorem sumVec_x (l : List Vec3) : (sumVec l).x = (l.map Vec3.x).sum := by
  induction l with
  | nil => rfl
  | cons v r ih => simp [sumVec, Vec3.add_def, ih]

theorem sumVec_y (l : List Vec3) : (sumVec l).y = (l.map Vec3.y).sum := by
  induction l with
  | nil => rfl
  | cons v r ih => simp [sumVec, Vec3.add_def, ih]

theorem sumVec_z (l : List Vec3) : (sumVec l).z = (l.map Vec3.z).sum := by
  induction l with
  | nil => rfl
  | cons v r ih => simp [sumVec, Vec3.add_def, ih]

theorem meanVec_eq_average (l : List Vec3) (h : l ≠ []) :
    meanVec l = some (specElementwiseAverage l) := by
  unfold meanVec specElementwiseAverage
  rw [if_neg (by simpa using h)]
  have hs : Vec3.scale (sumVec l) (1 / (l.length : ℚ)) =
      ⟨(sumVec l).x * (1 / (l.length : ℚ)), (sumVec l).y * (1 / (l.length : ℚ)),
       (sumVec l).z * (1 / (l.length : ℚ))⟩ := rfl
  rw [hs, sumVec_x, sumVec_y, sumVec_z]
  simp [div_eq_mul_inv]

theorem Bounds.update_wf {b : Bounds} (p : Vec3) (h : b.wf) : (b.update p).wf := by
  obtain ⟨hx, hy, hz⟩ := h
  exact ⟨le_trans (min_le_right _ _) (le_trans hx (le_max_right _ _)),
         le_trans (min_le_right _ _) (le_trans hy (le_max_right _ _)),
         le_trans (min_le_right _ _) (le_trans hz (le_max_right _ _))⟩

theorem Bounds.update_wf_of_first (b : Bounds) (p : Vec3) : (b.update p).wf :=
  ⟨le_trans (min_le_left _ _) (le_max_left _ _),
   le_trans (min_le_left _ _) (le_max_left _ _),
   le_trans (min_le_left _ _) (le_max_left _ _)⟩

theorem foldl_update_wf (l : List Vec3) : ∀ b : Bounds, b.wf →
    (l.foldl Bounds.update b).wf := by
  induction l with
  | nil => intro b h; exact h
  | cons p r ih => intro b h; exact ih _ (Bounds.update_wf p h)

theorem foldl_update_wf_of_ne (l : List Vec3) (h : l ≠ []) (b : Bounds) :
    (l.foldl Bounds.update b).wf := by
  cases l with
  | nil => exact absurd rfl h
  | cons p r => exact foldl_update_wf r _ (Bounds.update_wf_of_first b p)

/-- The fields of `framefitSetup`'s scene other than selection and camera
position are those of the input scene; the camera position is the auto-fit
output. -/
theorem framefitSetup_fields {vf : Scene → Vec3} {targets : List String} {s : Scene}
    {s1 : Scene} {cps : List Vec3}
    (h : framefitSetup vf targets s = some (s1, cps)) :
    s1.objects = s.objects ∧ s1.invisible = s.invisible ∧
    s1.camPos = vf { s with selection := collectedShapes s targets } ∧
    s1.camPosNaN = false ∧
    s1.coi = s.coi ∧ s1.undoOpen = s.undoOpen := by
  obtain ⟨-, hs1, -⟩ := framefitSetup_eq h
  rw [hs1]
  have hp := centreLoop_fst_preserves
    ((shapedTargets s targets).dedup.filter (fun t => !(s.invisible.contains t)))
    { s with selection := collectedShapes s targets,
             camPos := vf { s with selection := collectedShapes s targets },
             camPosNaN := false }
  simpa using hp

/-- C8: for any non-empty list of axis-aligned extents, the per-extent
centre computed by `get_centre_in_bounds` equals the elementwise
`(min+max)/2` of that extent, and the mean computed over the set (the
code's `numpy.mean(..., axis=0)`) equals the elementwise average of those
per-extent centres. -/
theorem get_centre_and_mean_spec (extents : List Bounds) (h : extents ≠ []) :
    (∀ b : Bounds, get_centre_in_bounds b =
      ⟨(b.min_x + b.max_x) / 2, (b.min_y + b.max_y) / 2, (b.min_z + b.max_z) / 2⟩) ∧
    meanVec (extents.map get_centre_in_bounds) =
      some (specElementwiseAverage (extents.map get_centre_in_bounds)) := by
  constructor
  · intro b
    simp only [get_centre_in_bounds, Vec3.sub_mk, Vec3.scale_mk, Vec3.add_mk,
      Vec3.mk.injEq]
    refine ⟨by ring, by ring, by ring⟩
  · exact meanVec_eq_average _ (by simpa using h)

/-- Witness for C8 at the spec's example extents: their centres average to
`(3,3,3)`. -/
theorem get_centre_and_mean_spec_witness :
    ([⟨0, 0, 0, 2, 2, 2⟩, ⟨4, 4, 4, 6, 6, 6⟩] : List Bounds) ≠ [] ∧
    meanVec (([⟨0, 0, 0, 2, 2, 2⟩, ⟨4, 4, 4, 6, 6, 6⟩] : List Bounds).map
      get_centre_in_bounds) = some ⟨3, 3, 3⟩ := by
  refine ⟨by simp, ?_⟩
  have h := (get_centre_and_mean_spec
    [⟨0, 0, 0, 2, 2, 2⟩, ⟨4, 4, 4, 6, 6, 6⟩] (by simp)).2
  rw [h]
  norm_num [specElementwiseAverage, get_centre_in_bounds,
    Vec3.sub_mk, Vec3.scale_mk, Vec3.add_mk]

/-- C9: when `get_bounds_of_anim_control_shapes` returns, the extent it
returns satisfies min ≤ max per axis whenever at least one control-vertex
point was sampled from the control's curve shapes; when no point was
sampled it is the fixed sentinel extent. -/
theorem get_bounds_min_le_max (s : Scene) (control : String) (s1 : Scene)
    (b : Bounds)
    (h : get_bounds_of_anim_control_shapes s control = .ok (s1, b)) :
    (sampledPoints (listRelativesShapes s control) ≠ [] →
      b.min_x ≤ b.max_x ∧ b.min_y ≤ b.max_y ∧ b.min_z ≤ b.max_z) ∧
    (sampledPoints (listRelativesShapes s control) = [] → b = sentinelBounds) := by
  obtain ⟨-, hb⟩ := get_bounds_ok_eq h
  subst hb
  refine ⟨fun hne => foldl_update_wf_of_ne _ hne _, fun he => ?_⟩
  rw [he]
  rfl

/-- Witness for C9 on a control with two sampled points. -/
theorem get_bounds_min_le_max_witness :
    get_bounds_of_anim_control_shapes twoPointScene "c" =
      .ok ({ twoPointScene with selection := ["cShape"] }, ⟨1, 0, 3, 4, 2, 5⟩) ∧
    sampledPoints (listRelativesShapes twoPointScene "c") ≠ [] ∧
    ((1 : ℚ) ≤ 4 ∧ (0 : ℚ) ≤ 2 ∧ (3 : ℚ) ≤ 5) := by
  have h : get_bounds_of_anim_control_shapes twoPointScene "c" =
      .ok ({ twoPointScene with selection := ["cShape"] }, ⟨1, 0, 3, 4, 2, 5⟩) := by
    simp [get_bounds_of_anim_control_shapes, listRelativesShapes, twoPointScene,
      sampledPoints, Shape.curvePoints, sentinelBounds, Bounds.update]
    norm_num
  refine ⟨h, ?_, (get_bounds_min_le_max _ _ _ _ h).1 ?_⟩ <;>
    simp [listRelativesShapes, twoPointScene, sampledPoints, Shape.curvePoints]

/-- C10: a control with shapes but no sampled CV point (all shapes
non-curve or all curves empty) yields the inverted sentinel extent without
raising, its centre is the world origin, and `framefit_animrig`'s setup
phase records that origin among the centroid points instead of skipping the
control. -/
theorem no_points_sentinel_origin (vf : Scene → Vec3) (targets : List String)
    (s : Scene) (t : String) (s1 : Scene) (cps : List Vec3)
    (h1 : listRelativesShapes s t ≠ [])
    (h2 : sampledPoints (listRelativesShapes s t) = [])
    (h3 : framefitSetup vf targets s = some (s1, cps))
    (h4 : t ∈ targets) (h5 : t ∉ s.invisible) :
    get_bounds_of_anim_control_shapes s t =
      .ok ({ s with selection := (listRelativesShapes s t).map Shape.name },
           sentinelBounds) ∧
    get_centre_in_bounds sentinelBounds = ⟨0, 0, 0⟩ ∧
    (⟨0, 0, 0⟩ : Vec3) ∈ cps := by
  have hne : ¬ (listRelativesShapes s t).isEmpty := by simpa using h1
  have hcent : get_centre_in_bounds sentinelBounds = ⟨0, 0, 0⟩ := by
    norm_num [get_centre_in_bounds, sentinelBounds, Vec3.sub_mk, Vec3.scale_mk,
      Vec3.add_mk]
  refine ⟨?_, hcent, ?_⟩
  · unfold get_bounds_of_anim_control_shapes
    rw [if_neg (by simpa using hne), h2]
    rfl
  · obtain ⟨-, -, hcps⟩ := framefitSetup_eq h3
    rw [hcps, centreLoop_snd]
    refine List.mem_filterMap.mpr ⟨t, ?_, ?_⟩
    · refine List.mem_filter.mpr ⟨List.mem_dedup.mpr ?_, by simp [h5]⟩
      exact List.mem_filter.mpr ⟨h4, by simpa using hne⟩
    · refine Eq.trans (centreOf_eq_of_objects (b := s) t rfl) ?_
      unfold centreOf
      rw [if_neg (by simpa using hne), h2]
      simpa using hcent

/-- Witness for C10 on `nonCurveScene`: the setup phase records exactly the
origin as the centroid point of the shaped, point-less control. -/
theorem no_points_sentinel_origin_witness :
    framefitSetup (fun sc => sc.camPos) ["n"] nonCurveScene =
      some ({ nonCurveScene with selection := ["nShape"] }, [⟨0, 0, 0⟩]) ∧
    (⟨0, 0, 0⟩ : Vec3) ∈ [(⟨0, 0, 0⟩ : Vec3)] := by
  have h3 : framefitSetup (fun sc => sc.camPos) ["n"] nonCurveScene =
      some ({ nonCurveScene with selection := ["nShape"] }, [⟨0, 0, 0⟩]) := by
    simp [framefitSetup, shapedTargets, collectedShapes, listRelativesShapes,
      nonCurveScene, centreLoop, get_bounds_of_anim_control_shapes,
      sampledPoints, Shape.curvePoints, List.dedup, get_centre_in_bounds,
      sentinelBounds, Vec3.sub_mk, Vec3.scale_mk, Vec3.add_mk]
    norm_num
  refine ⟨h3, ?_⟩
  exact (no_points_sentinel_origin (fun sc => sc.camPos) ["n"] nonCurveScene "n"
    _ _ (by simp [listRelativesShapes, nonCurveScene])
    (by simp [listRelativesShapes, nonCurveScene, sampledPoints, Shape.curvePoints])
    h3 (by simp) (by simp [nonCurveScene])).2.2

/-- Unfolding of `framefit_animrig` once the setup phase produced a scene
and centre list: the remaining zoom logic of framefit.py:174-190 (the
empty-centre branch writes the NaN mean into the camera translation and
truncates the separately-read `centerOfInterest`). -/
theorem framefit_animrig_eq_some {vf : Scene → Vec3} {targets : List String}
    {f : ℚ} {s s1 : Scene} {cps : List Vec3}
    (hsetup : framefitSetup vf targets s = some (s1, cps)) :
    framefit_animrig vf targets f s =
      if f = 0 then s1
      else
        match meanVec cps with
        | none =>
          { s1 with
            camPosNaN := true
            coi := ((pyInt (s1.coi * (1 - max 0 (min f 1))) : Int) : ℚ) }
        | some centre_pos =>
          { s1 with
            camPos := s1.camPos + (centre_pos - s1.camPos).scale (max 0 (min f 1))
            coi := ((pyInt (s1.coi * (1 - max 0 (min f 1))) : Int) : ℚ) } := by
  unfold framefit_animrig
  rw [hsetup]

/-- Unfolding of `framefit_animrig` when every target lacks shapes: the
early return of framefit.py:139-141. -/
theorem framefit_animrig_eq_none {vf : Scene → Vec3} {targets : List String}
    {f : ℚ} {s : Scene}
    (h : framefitSetup vf targets s = none) :
    framefit_animrig vf targets f s = s := by
  unfold framefit_animrig
  rw [h]

/-- The nonzero-fraction branch of `framefit_animrig` when the centroid
list has no mean (empty list, NaN): the NaN camera write plus the coi
truncation of framefit.py:186-190. -/
theorem framefit_animrig_none_mean {vf : Scene → Vec3} {targets : List String}
    {f : ℚ} {s s1 : Scene} {cps : List Vec3}
    (hset : framefitSetup vf targets s = some (s1, cps))
    (hf : f ≠ 0) (hm : meanVec cps = none) :
    framefit_animrig vf targets f s =
      { s1 with
        camPosNaN := true
        coi := ((pyInt (s1.coi * (1 - max 0 (min f 1))) : Int) : ℚ) } := by
  rw [framefit_animrig_eq_some hset, if_neg hf]
  split
  · rfl
  · rename_i c heq
    rw [hm] at heq
    cases heq

/-- The nonzero-fraction branch of `framefit_animrig` when the centroid
list has mean `c`: the camera move plus the coi truncation of
framefit.py:178-190. -/
theorem framefit_animrig_some_mean {vf : Scene → Vec3} {targets : List String}
    {f : ℚ} {s s1 : Scene} {cps : List Vec3} {c : Vec3}
    (hset : framefitSetup vf targets s = some (s1, cps))
    (hf : f ≠ 0) (hm : meanVec cps = some c) :
    framefit_animrig vf targets f s =
      { s1 with
        camPos := s1.camPos + (c - s1.camPos).scale (max 0 (min f 1))
        coi := ((pyInt (s1.coi * (1 - max 0 (min f 1))) : Int) : ℚ) } := by
  rw [framefit_animrig_eq_some hset, if_neg hf]
  split
  · rename_i heq
    rw [hm] at heq
    cases heq
  · rename_i c2 heq
    rw [hm] at heq
    injection heq with h2
    subst h2
    rfl

/-- C1: when the setup phase produced the per-target centroid points `cps`
with mean `c`, and the camera's position as the script reads it (after the
unconditional initial auto-fit) is `p`, the call leaves the camera at a
real (non-NaN) position, the convex combination `p + (c - p) * clamp(f, 0, 1)`. -/
theorem framefit_camera_convex (vf : Scene → Vec3) (targets : List String)
    (f : ℚ) (s s1 : Scene) (cps : List Vec3) (p c : Vec3)
    (hsetup : framefitSetup vf targets s = some (s1, cps))
    (hp : s1.camPos = p)
    (hc : meanVec cps = some c) :
    (framefit_animrig vf targets f s).camPosNaN = false ∧
    (framefit_animrig vf targets f s).camPos =
      p + (c - p).scale (max 0 (min f 1)) := by
  have hnan : s1.camPosNaN = false := (framefitSetup_fields hsetup).2.2.2.1
  rw [framefit_animrig_eq_some hsetup]
  by_cases hf : f = 0
  · subst hf
    rw [if_pos rfl]
    refine ⟨hnan, ?_⟩
    have hd : max (0 : ℚ) (min 0 1) = 0 := by norm_num
    rw [hd, hp]
    exact (Vec3.add_scale_zero p (c - p)).symm
  · rw [if_neg hf, hc]
    refine ⟨hnan, ?_⟩
    show s1.camPos + (c - s1.camPos).scale (max 0 (min f 1)) =
      p + (c - p).scale (max 0 (min f 1))
    rw [hp]

/-- Witness for C1 at the spec's example: extents `(0,0,0,2,2,2)` and
`(4,4,4,6,6,6)` give centroid `(3,3,3)`; a camera at `(3,3,-7)` with
fraction `0.5` moves to `(3,3,-2)`. -/
theorem framefit_camera_convex_witness :
    (framefit_animrig (fun _ => ⟨3, 3, -7⟩) ["a", "b"] (1 / 2) demoScene).camPosNaN =
      false ∧
    (framefit_animrig (fun _ => ⟨3, 3, -7⟩) ["a", "b"] (1 / 2) demoScene).camPos =
      ⟨3, 3, -2⟩ := by
  have hsetup : framefitSetup (fun _ => ⟨3, 3, -7⟩) ["a", "b"] demoScene =
      some ({ demoScene with selection := ["bShape"] }, [⟨1, 1, 1⟩, ⟨5, 5, 5⟩]) := by
    simp [framefitSetup, shapedTargets, collectedShapes, listRelativesShapes,
      centreLoop, get_bounds_of_anim_control_shapes, sampledPoints,
      Shape.curvePoints, sentinelBounds, Bounds.update, get_centre_in_bounds,
      demoScene, demoA, demoB, Vec3.sub_mk, Vec3.scale_mk, Vec3.add_mk,
      List.dedup]
    norm_num
  have hc : meanVec [(⟨1, 1, 1⟩ : Vec3), ⟨5, 5, 5⟩] = some ⟨3, 3, 3⟩ := by
    norm_num [meanVec, sumVec, Vec3.add_mk, Vec3.scale_mk]
  obtain ⟨hn, hcam⟩ := framefit_camera_convex (fun _ => ⟨3, 3, -7⟩)
    ["a", "b"] (1 / 2) demoScene _ _ ⟨3, 3, -7⟩ ⟨3, 3, 3⟩ hsetup rfl hc
  refine ⟨hn, hcam.trans ?_⟩
  norm_num [Vec3.sub_mk, Vec3.scale_mk, Vec3.add_mk, min_def, max_def]

/-- Counterexample to C4 as stated: with stored `centerOfInterest` 3 and
fraction `1/2` the stored value becomes 1, not `3 * (1 - 1/2) = 3/2`,
because the script truncates with Python `int`. -/
theorem framefit_coi_proportional_cex :
    framefit_animrig (fun sc => sc.camPos) ["a"] (1 / 2) coiScene =
      { coiScene with
        selection := ["aShape"]
        camPos := ⟨1 / 2, 1 / 2, 1 / 2⟩
        coi := 1 } ∧
    (1 : ℚ) ≠ coiScene.coi * (1 - max 0 (min (1 / 2 : ℚ) 1)) := by
  constructor
  · simp [framefit_animrig, framefitSetup, shapedTargets, collectedShapes,
      listRelativesShapes, coiScene, demoA, centreLoop,
      get_bounds_of_anim_control_shapes, sampledPoints, Shape.curvePoints,
      sentinelBounds, Bounds.update, get_centre_in_bounds, meanVec, sumVec,
      pyInt, List.dedup, Vec3.sub_mk, Vec3.scale_mk, Vec3.add_mk,
      min_def, max_def]
    norm_num
  · norm_num [coiScene, min_def, max_def]

/-- C4 (amended): for a camera with stored `centerOfInterest` `d` and a
zoom fraction with nonzero clamped value `delta`, when some shaped target
exists the stored value after the call is the Python-`int` truncation of
`d * (1 - delta)`, not the exact product (this holds on both zoom branches,
including the empty-centroid one, whose `int(...)` also reads the real
attribute). -/
theorem framefit_coi_truncated (vf : Scene → Vec3) (targets : List String)
    (f : ℚ) (s : Scene)
    (h1 : shapedTargets s targets ≠ [])
    (h2 : max 0 (min f 1) ≠ 0) :
    (framefit_animrig vf targets f s).coi =
      ((pyInt (s.coi * (1 - max 0 (min f 1))) : Int) : ℚ) := by
  have hf : f ≠ 0 := by
    rintro rfl
    exact h2 (by norm_num)
  cases hset : framefitSetup vf targets s with
  | none =>
    exfalso
    unfold framefitSetup at hset
    rw [if_neg (by simpa using h1)] at hset
    cases hset
  | some pr =>
    obtain ⟨s1, cps⟩ := pr
    have hcoi : s1.coi = s.coi := (framefitSetup_fields hset).2.2.2.2.1
    cases hc : meanVec cps with
    | none =>
      rw [framefit_animrig_none_mean hset hf hc]
      show ((pyInt (s1.coi * (1 - max 0 (min f 1))) : Int) : ℚ) =
        ((pyInt (s.coi * (1 - max 0 (min f 1))) : Int) : ℚ)
      rw [hcoi]
    | some c =>
      rw [framefit_animrig_some_mean hset hf hc]
      show ((pyInt (s1.coi * (1 - max 0 (min f 1))) : Int) : ℚ) =
        ((pyInt (s.coi * (1 - max 0 (min f 1))) : Int) : ℚ)
      rw [hcoi]

/-- Witness for C4 (amended): with stored value 3 and fraction `1/2`, the
stored value after the call is `int(3 * 1/2) = 1`. -/
theorem framefit_coi_truncated_witness :
    shapedTargets coiScene ["a"] ≠ [] ∧
    max (0 : ℚ) (min (1 / 2) 1) ≠ 0 ∧
    (framefit_animrig (fun sc => sc.camPos) ["a"] (1 / 2) coiScene).coi =
      ((pyInt (coiScene.coi * (1 - max 0 (min (1 / 2 : ℚ) 1))) : Int) : ℚ) ∧
    ((pyInt (coiScene.coi * (1 - max 0 (min (1 / 2 : ℚ) 1))) : Int) : ℚ) = 1 := by
  refine ⟨by simp [shapedTargets, listRelativesShapes, coiScene, demoA],
    by norm_num,
    framefit_coi_truncated (fun sc => sc.camPos) ["a"] (1 / 2) coiScene
      (by simp [shapedTargets, listRelativesShapes, coiScene, demoA])
      (by norm_num), ?_⟩
  norm_num [coiScene, pyInt, min_def, max_def]

/-- Counterexample to C3 as stated: with the only (shaped) target hidden
and a nonzero zoom fraction, the call does mutate the camera — the
auto-fit repositions it, the NaN centroid mean is then written into its
translation by `cmds.xform`, and the `centerOfInterest` is truncated-scaled
(no exception is raised anywhere). -/
theorem framefit_all_hidden_mutates_cex :
    framefit_animrig (fun _ => ⟨5, 5, 5⟩) ["a"] (1 / 4) hiddenScene =
      hiddenSceneAfter ∧
    hiddenSceneAfter.camPos ≠ hiddenScene.camPos ∧
    hiddenSceneAfter.camPosNaN ≠ hiddenScene.camPosNaN ∧
    hiddenSceneAfter.coi ≠ hiddenScene.coi := by
  refine ⟨?_, ?_, ?_, ?_⟩
  · simp [framefit_animrig, framefitSetup, shapedTargets, collectedShapes,
      listRelativesShapes, hiddenScene, hiddenSceneAfter, demoA, centreLoop,
      meanVec, pyInt, List.dedup, min_def, max_def]
    norm_num
  · simp [hiddenScene, hiddenSceneAfter]
  · simp [hiddenScene, hiddenSceneAfter]
  · simp [hiddenScene, hiddenSceneAfter]

/-- C3 (amended): if every target lacks shapes, the call is a true no-op
(returns the scene unchanged). No exception propagates in any case — the
embedded operation is total — but when shaped targets exist while the
hidden-object query excludes every one of them (empty centroid list), the
call still mutates: the auto-fit and selection writes of the setup phase
happen and, for a nonzero zoom fraction, the NaN mean is written into the
camera position and the `centerOfInterest` is truncated-scaled. -/
theorem framefit_excluded_targets (vf : Scene → Vec3) (targets : List String)
    (z : ℚ) (s : Scene) :
    (shapedTargets s targets = [] → framefit_animrig vf targets z s = s) ∧
    (∀ s1 cps, framefitSetup vf targets s = some (s1, cps) → cps = [] →
      z ≠ 0 →
      framefit_animrig vf targets z s =
        { s1 with
          camPosNaN := true
          coi := ((pyInt (s1.coi * (1 - max 0 (min z 1))) : Int) : ℚ) }) := by
  constructor
  · intro h
    simp [framefit_animrig, framefitSetup, h]
  · intro s1 cps hset hcps hz
    rw [framefit_animrig_eq_some hset, if_neg hz, hcps]
    rfl

/-- Witness for C3 (amended): the no-shape case is a no-op, and in the
all-hidden case the call returns normally with the NaN camera write and the
truncated `centerOfInterest`. -/
theorem framefit_excluded_targets_witness :
    framefit_animrig (fun sc => sc.camPos) ["empty"] (1 / 4) bareScene =
      bareScene ∧
    framefit_animrig (fun sc => sc.camPos) ["a"] (1 / 4) hiddenScene =
      { hiddenScene with
        selection := ["aShape"]
        camPosNaN := true
        coi := 7 } := by
  constructor
  · exact (framefit_excluded_targets (fun sc => sc.camPos) ["empty"] (1 / 4)
      bareScene).1 (by simp [shapedTargets, listRelativesShapes, bareScene])
  · have hset : framefitSetup (fun sc => sc.camPos) ["a"] hiddenScene =
        some ({ hiddenScene with selection := ["aShape"] }, []) := by
      simp [framefitSetup, shapedTargets, collectedShapes, listRelativesShapes,
        hiddenScene, demoA, centreLoop, List.dedup]
    have h := (framefit_excluded_targets (fun sc => sc.camPos) ["a"] (1 / 4)
      hiddenScene).2 _ _ hset rfl (by norm_num)
    rw [h]
    simp [hiddenScene]
    norm_num [pyInt, min_def, max_def]

/-- Counterexample to C5 as stated: with an auto-fit that moves the camera
(here: to the origin), a second call at fraction 0 does change the camera
position, because the auto-fit runs unconditionally before the zoom check. -/
theorem framefit_second_zoom0_cex :
    framefit_animrig (fun _ => ⟨0, 0, 0⟩) ["a"] (1 / 2) coiScene =
      coiSceneAfterFirst ∧
    framefit_animrig (fun _ => ⟨0, 0, 0⟩) ["a"] 0 coiSceneAfterFirst =
      { coiSceneAfterFirst with camPos := ⟨0, 0, 0⟩ } ∧
    ({ coiSceneAfterFirst with camPos := ⟨0, 0, 0⟩ } : Scene).camPos ≠
      coiSceneAfterFirst.camPos := by
  refine ⟨?_, ?_, ?_⟩
  · simp [framefit_animrig, framefitSetup, shapedTargets, collectedShapes,
      listRelativesShapes, coiScene, coiSceneAfterFirst, demoA, centreLoop,
      get_bounds_of_anim_control_shapes, sampledPoints, Shape.curvePoints,
      sentinelBounds, Bounds.update, get_centre_in_bounds, meanVec, sumVec,
      pyInt, List.dedup, Vec3.sub_mk, Vec3.scale_mk, Vec3.add_mk,
      min_def, max_def]
    norm_num
  · simp [framefit_animrig, framefitSetup, shapedTargets, collectedShapes,
      listRelativesShapes, coiScene, coiSceneAfterFirst, demoA, centreLoop,
      get_bounds_of_anim_control_shapes, sampledPoints, Shape.curvePoints,
      sentinelBounds, Bounds.update, List.dedup]
  · simp [coiSceneAfterFirst, coiScene]

/-- C5 (amended): a second call with zoom fraction 0 leaves the camera
position unchanged from after the first call, provided the unconditional
initial auto-fit leaves the camera position where it was. -/
theorem framefit_second_zoom0_campos (vf : Scene → Vec3) (targets : List String)
    (f : ℚ) (s s1 s2 : Scene)
    (hvf : ∀ sc : Scene, vf sc = sc.camPos)
    (_h1 : framefit_animrig vf targets f s = s1)
    (h2 : framefit_animrig vf targets 0 s1 = s2) :
    s2.camPos = s1.camPos := by
  cases hset : framefitSetup vf targets s1 with
  | none =>
    rw [framefit_animrig_eq_none hset] at h2
    rw [← h2]
  | some pr =>
    obtain ⟨sa, cps⟩ := pr
    rw [framefit_animrig_eq_some hset, if_pos rfl] at h2
    rw [← h2]
    have hcam := (framefitSetup_fields hset).2.2.1
    rw [hcam, hvf]

/-- Witness for C5 (amended): with a position-preserving auto-fit, the
camera stays where the first call left it. -/
theorem framefit_second_zoom0_campos_witness :
    framefit_animrig (fun sc => sc.camPos) ["a"] (1 / 2) coiScene =
      coiSceneAfterFirst ∧
    framefit_animrig (fun sc => sc.camPos) ["a"] 0 coiSceneAfterFirst =
      coiSceneAfterFirst ∧
    coiSceneAfterFirst.camPos = coiSceneAfterFirst.camPos := by
  have h1 : framefit_animrig (fun sc => sc.camPos) ["a"] (1 / 2) coiScene =
      coiSceneAfterFirst := by
    simp [framefit_animrig, framefitSetup, shapedTargets, collectedShapes,
      listRelativesShapes, coiScene, coiSceneAfterFirst, demoA, centreLoop,
      get_bounds_of_anim_control_shapes, sampledPoints, Shape.curvePoints,
      sentinelBounds, Bounds.update, get_centre_in_bounds, meanVec, sumVec,
      pyInt, List.dedup, Vec3.sub_mk, Vec3.scale_mk, Vec3.add_mk,
      min_def, max_def]
    norm_num
  have h2 : framefit_animrig (fun sc => sc.camPos) ["a"] 0 coiSceneAfterFirst =
      coiSceneAfterFirst := by
    simp [framefit_animrig, framefitSetup, shapedTargets, collectedShapes,
      listRelativesShapes, coiScene, coiSceneAfterFirst, demoA, centreLoop,
      get_bounds_of_anim_control_shapes, sampledPoints, Shape.curvePoints,
      sentinelBounds, Bounds.update, List.dedup]
  exact ⟨h1, h2, framefit_second_zoom0_campos (fun sc => sc.camPos) ["a"]
    (1 / 2) coiScene _ _ (fun _ => rfl) h1 h2⟩

/-- Counterexample to C6 as stated: a negative fraction is not equivalent
to fraction 0 — with stored center-of-interest `3/2`, fraction `-1` leaves
the camera in place but truncates the stored value to 1, while fraction 0
leaves it at `3/2`. -/
theorem framefit_clamp_below_cex :
    framefit_animrig (fun sc => sc.camPos) ["a"] (-1) fracCoiScene =
      { fracCoiScene with selection := ["aShape"], coi := 1 } ∧
    framefit_animrig (fun sc => sc.camPos) ["a"] 0 fracCoiScene =
      { fracCoiScene with selection := ["aShape"] } ∧
    ({ fracCoiScene with selection := ["aShape"], coi := 1 } : Scene) ≠
      { fracCoiScene with selection := ["aShape"] } := by
  refine ⟨?_, ?_, ?_⟩
  · simp [framefit_animrig, framefitSetup, shapedTargets, collectedShapes,
      listRelativesShapes, fracCoiScene, demoA, centreLoop,
      get_bounds_of_anim_control_shapes, sampledPoints, Shape.curvePoints,
      sentinelBounds, Bounds.update, get_centre_in_bounds, meanVec, sumVec,
      pyInt, List.dedup, Vec3.sub_mk, Vec3.scale_mk, Vec3.add_mk,
      min_def, max_def]
    norm_num
  · simp [framefit_animrig, framefitSetup, shapedTargets, collectedShapes,
      listRelativesShapes, fracCoiScene, demoA, centreLoop,
      get_bounds_of_anim_control_shapes, sampledPoints, Shape.curvePoints,
      sentinelBounds, Bounds.update, List.dedup]
  · simp [fracCoiScene]
    norm_num

/-- C6 (amended): every fraction above 1 has exactly the same effect as
fraction 1. A fraction below 0 proceeds past the zoom-0 early return with
clamped value 0: when centroid points remain it yields the zoom-0 state
with the `centerOfInterest` additionally truncated to an integer; when
none remain (all shaped targets hidden) it additionally overwrites the
camera position with the NaN mean, which fraction 0 does not. -/
theorem framefit_clamp_amended (vf : Scene → Vec3) (targets : List String)
    (f : ℚ) (s : Scene) :
    (1 < f → framefit_animrig vf targets f s = framefit_animrig vf targets 1 s) ∧
    (f < 0 → ∀ s1 cps, framefitSetup vf targets s = some (s1, cps) →
      framefit_animrig vf targets 0 s = s1 ∧
      framefit_animrig vf targets f s =
        (if cps.isEmpty then
          { s1 with
            camPosNaN := true
            coi := ((pyInt s1.coi : Int) : ℚ) }
         else
          { s1 with coi := ((pyInt s1.coi : Int) : ℚ) })) := by
  constructor
  · intro hf
    have hf0 : f ≠ 0 := by
      intro h
      rw [h] at hf
      exact absurd hf (by norm_num)
    cases hset : framefitSetup vf targets s with
    | none =>
      rw [framefit_animrig_eq_none hset, framefit_animrig_eq_none hset]
    | some pr =>
      obtain ⟨sa, cps⟩ := pr
      rw [framefit_animrig_eq_some hset, framefit_animrig_eq_some hset,
        if_neg hf0, if_neg (by norm_num : (1 : ℚ) ≠ 0)]
      have hd : max 0 (min f 1) = max 0 (min (1 : ℚ) 1) := by
        rw [min_eq_right (le_of_lt hf), min_self]
      rw [hd]
  · intro hf s1 cps hset
    have hf0 : f ≠ 0 := ne_of_lt hf
    have hd : max 0 (min f 1) = 0 := by
      rw [min_eq_left (by linarith : f ≤ 1), max_eq_left (le_of_lt hf)]
    refine ⟨by rw [framefit_animrig_eq_some hset, if_pos rfl], ?_⟩
    cases hc : meanVec cps with
    | none =>
      have hemp : cps.isEmpty := by
        by_cases he : cps.isEmpty
        · exact he
        · exfalso
          unfold meanVec at hc
          rw [if_neg he] at hc
          cases hc
      rw [framefit_animrig_none_mean hset hf0 hc, if_pos hemp, hd]
      have hco : s1.coi * (1 - 0) = s1.coi := by ring
      rw [hco]
    | some c =>
      have hemp : ¬ cps.isEmpty := by
        intro he
        unfold meanVec at hc
        rw [if_pos he] at hc
        cases hc
      rw [framefit_animrig_some_mean hset hf0 hc, if_neg hemp, hd,
        Vec3.add_scale_zero]
      have hco : s1.coi * (1 - 0) = s1.coi := by ring
      rw [hco]

/-- Witness for C6 (amended) at concrete inputs: fraction 2 behaves exactly
as fraction 1, and fraction `-1` yields the fraction-0 state with the
stored `3/2` truncated to 1. -/
theorem framefit_clamp_amended_witness :
    framefit_animrig (fun sc => sc.camPos) ["a"] 2 fracCoiScene =
      framefit_animrig (fun sc => sc.camPos) ["a"] 1 fracCoiScene ∧
    framefit_animrig (fun sc => sc.camPos) ["a"] 0 fracCoiScene =
      { fracCoiScene with selection := ["aShape"] } ∧
    framefit_animrig (fun sc => sc.camPos) ["a"] (-1) fracCoiScene =
      { fracCoiScene with selection := ["aShape"], coi := 1 } := by
  have hset : framefitSetup (fun sc => sc.camPos) ["a"] fracCoiScene =
      some ({ fracCoiScene with selection := ["aShape"] }, [⟨1, 1, 1⟩]) := by
    simp [framefitSetup, shapedTargets, collectedShapes, listRelativesShapes,
      fracCoiScene, demoA, centreLoop, get_bounds_of_anim_control_shapes,
      sampledPoints, Shape.curvePoints, sentinelBounds, Bounds.update,
      get_centre_in_bounds, List.dedup, Vec3.sub_mk, Vec3.scale_mk,
      Vec3.add_mk]
    norm_num
  obtain ⟨h0, hneg⟩ := (framefit_clamp_amended (fun sc => sc.camPos) ["a"]
    (-1) fracCoiScene).2 (by norm_num) _ _ hset
  refine ⟨(framefit_clamp_amended (fun sc => sc.camPos) ["a"] 2
    fracCoiScene).1 (by norm_num), h0, ?_⟩
  rw [hneg]
  simp [fracCoiScene]
  norm_num [pyInt, min_def, max_def]

/-- C7: the entry point restores the user's original selection and closes
the undo chunk it opened, for every behaviour of the inner computation
(including one that raises: the exception component is swallowed), and the
concrete entry point built on the embedded framing call does the same; its
total return type reflects that no exception propagates to the caller. -/
theorem entry_restores_selection_and_undo
    (inner : Scene → Scene × Option String) (vf : Scene → Vec3) (s : Scene) :
    ((run_with_undo inner s).undoOpen = false ∧
     (run_with_undo inner s).selection = s.selection) ∧
    ((framefit_animrig_current_panel_to_selected vf s).undoOpen = false ∧
     (framefit_animrig_current_panel_to_selected vf s).selection = s.selection) :=
  ⟨⟨rfl, rfl⟩, rfl, rfl⟩

end FrameFit

namespace AnimRigBatch

/-- The fan-in fold, characterised: successes are the zero-exit jobs in
order, failures the non-zero-exit jobs with their captured stderr. -/
theorem collectResults_append (jobs : List (ProcResult × MayaPath)) :
    ∀ acc : List (String × MayaPath) × List (String × MayaPath),
    jobs.foldl (fun a j => run_create_anim_threaded j.1 j.2 a) acc =
      (acc.1 ++ (jobs.filter (fun j => j.1.returncode == 0)).map
        (fun j => ("Success", j.2)),
       acc.2 ++ (jobs.filter (fun j => !(j.1.returncode == 0))).map
        (fun j => (j.1.stderr, j.2))) := by
  induction jobs with
  | nil => intro acc; simp
  | cons j rest ih =>
    intro acc
    rw [List.foldl_cons, ih]
    by_cases hj : j.1.returncode = 0 <;>
      simp [run_create_anim_threaded, hj, List.filter_cons]

theorem collectResults_spec (jobs : List (ProcResult × MayaPath)) :
    collectResults jobs =
      ((jobs.filter (fun j => j.1.returncode == 0)).map
        (fun j => ("Success", j.2)),
       (jobs.filter (fun j => !(j.1.returncode == 0))).map
        (fun j => (j.1.stderr, j.2))) := by
  have h := collectResults_append jobs ([], [])
  simpa [collectResults] using h

/-- The printed report lines: one success line per zero-exit job followed
by each failing job's stderr. -/
theorem anim_rig_report_fst (jobs : List (ProcResult × MayaPath)) :
    (anim_rig_generator_report jobs).1 =
      (jobs.filter (fun j => j.1.returncode == 0)).map
        (fun j => "CreateAnim: " ++ j.2.path) ++
      (jobs.filter (fun j => !(j.1.returncode == 0))).map
        (fun j => j.1.stderr) := by
  unfold anim_rig_generator_report
  rw [collectResults_spec]
  by_cases he :
      (jobs.filter (fun j => !(j.1.returncode == 0))) = [] <;>
    simp [he, List.map_map, Function.comp_def]

/-- The aggregate outcome: `ok` when no job failed, otherwise one error
naming the failed jobs' path names. -/
theorem anim_rig_report_snd (jobs : List (ProcResult × MayaPath)) :
    (anim_rig_generator_report jobs).2 =
      if (jobs.filter (fun j => !(j.1.returncode == 0))).isEmpty then .ok ()
      else .error ("Failed Files: " ++ String.intercalate ", "
        ((jobs.filter (fun j => !(j.1.returncode == 0))).map
          (fun j => j.2.name))) := by
  unfold anim_rig_generator_report
  rw [collectResults_spec]
  by_cases he :
      (jobs.filter (fun j => !(j.1.returncode == 0))) = [] <;>
    simp [he, List.map_map, Function.comp_def]

/-- C2: every zero-exit job is reported as a success line, every non-zero
job's captured stderr is printed, and one aggregate failure naming exactly
the failed jobs' output-path names is raised precisely when some job
failed; in particular for 3 jobs where only job 2 exits non-zero, the
failure names exactly job 2's output name and jobs 1 and 3 are the reported
successes. (The threads' blocking joins are modelled by aggregating over
every job's recorded process result.) -/
theorem anim_rig_report_correct (jobs : List (ProcResult × MayaPath)) :
    (∀ j ∈ jobs, j.1.returncode = 0 →
      ("CreateAnim: " ++ j.2.path) ∈ (anim_rig_generator_report jobs).1) ∧
    (∀ j ∈ jobs, j.1.returncode ≠ 0 →
      j.1.stderr ∈ (anim_rig_generator_report jobs).1) ∧
    ((anim_rig_generator_report jobs).2 =
      if (jobs.filter (fun j => !(j.1.returncode == 0))).isEmpty then .ok ()
      else .error ("Failed Files: " ++ String.intercalate ", "
        ((jobs.filter (fun j => !(j.1.returncode == 0))).map
          (fun j => j.2.name)))) ∧
    (anim_rig_generator_report
        [(⟨0, ""⟩, ⟨"out/Job1_Anim.mb", "Job1_Anim.mb"⟩),
         (⟨1, "boom"⟩, ⟨"out/Job2_Anim.mb", "Job2_Anim.mb"⟩),
         (⟨0, ""⟩, ⟨"out/Job3_Anim.mb", "Job3_Anim.mb"⟩)] =
      (["CreateAnim: out/Job1_Anim.mb", "CreateAnim: out/Job3_Anim.mb", "boom"],
       .error "Failed Files: Job2_Anim.mb")) := by
  refine ⟨?_, ?_, anim_rig_report_snd jobs, ?_⟩
  · intro j hj hret
    rw [anim_rig_report_fst]
    refine List.mem_append_left _ (List.mem_map.mpr ⟨j, ?_, rfl⟩)
    exact List.mem_filter.mpr ⟨hj, by simp [hret]⟩
  · intro j hj hret
    rw [anim_rig_report_fst]
    refine List.mem_append_right _ (List.mem_map.mpr ⟨j, ?_, rfl⟩)
    exact List.mem_filter.mpr ⟨hj, by simp [hret]⟩
  · simp [anim_rig_generator_report, collectResults, run_create_anim_threaded,
      String.intercalate, String.intercalate.go]

end AnimRigBatch
